import Mathlib

attribute [local semireducible] Rat.add Rat.sub Rat.mul Rat.inv Rat.ofScientific

/-!
Verification of the RoseDale grade comparator (src/grade_comparator.py).

The embedding models the comparison pipeline after the spreadsheet files have
been read from disk: an `InputSnapshot` holds, per student row, the raw cell
contents that the Python code consumes, together with the snapshot date that
`load_and_clean_data` infers from the sheet or file name.  Grades are modelled
as `Option Rat`: `none` stands for pandas `NaN` (a missing cell or an entry
that `pd.to_numeric(..., errors='coerce')` could not parse after stripping a
trailing `%`).  Dates are modelled as integers (only their ordering and their
rendered form matter to the pipeline).  An uncaught Python exception is a
distinct `Outcome.crash` result, separate from the handled `Outcome.failure`
returns (`return False` paths).
-/

/-- One data row of a gradebook export, as `load_and_clean_data` sees it.
`col0` and `col1` are the first two display columns (column index 1 holds the
class/course name used for the output file name); `key` is the third column,
`df.columns[2]`, on which the two snapshots are merged; `grade` is the value
of the `Course grade` column after the `%` strip and `pd.to_numeric` coercion
of src/grade_comparator.py lines 112-113 (`none` = NaN); `graded` is the value
of the `Graded /N` column (`none` = NaN). -/
structure InputRow where
  col0 : String
  col1 : String
  key : String
  grade : Option Rat
  graded : Option Int
deriving DecidableEq, Repr

/-- One loaded gradebook export. `date` is the snapshot date inferred from the
sheet name or the file path (lines 104-109); `hasGradedHeader` records whether
a column header matching the `Graded /N` pattern exists (the lookups of
`find_completed_assessment_count` line 51-54 and `find_graded_col`
lines 156-160 both abstract to this flag). -/
structure InputSnapshot where
  rows : List InputRow
  date : Int
  hasGradedHeader : Bool
deriving DecidableEq, Repr

/-- Threshold below which a grade change counts as noise, line 196. -/
def TINY_CHANGE_LIMIT : Rat := 1/100

/-- The per-value scale heuristic of lines 116-119: a value strictly between
0 and 1.5 is treated as a 0-1 fraction and multiplied by 100; every other
value is left unchanged. -/
def scale_individual_value (v : Rat) : Rat :=
  if 0 < v ∧ v < 3/2 then v * 100 else v

/-- The data-cleaning part of `load_and_clean_data` (lines 111-123): the
`Course grade` column is rescaled value by value via the boolean mask
`is_decimal`; NaN entries stay NaN (a NaN compares false in the mask). The
date and the `Graded /N` data are untouched. -/
def load_and_clean_data (s : InputSnapshot) : InputSnapshot :=
  { s with rows := s.rows.map (fun r => { r with grade := r.grade.map scale_individual_value }) }

/-- Result of `find_completed_assessment_count` (lines 45-64): `noHeader`
models the `return None` when no `Graded /N` header matches; `emptyColumn`
models the uncaught `IndexError` that `df[col].dropna().iloc[0]` raises when
the column exists but holds only NaN; `count n` is the first non-missing
value cast to int. -/
inductive CountResult where
  | noHeader
  | emptyColumn
  | count (n : Int)
deriving DecidableEq, Repr

/-- Embedding of `find_completed_assessment_count` (lines 45-64). -/
def find_completed_assessment_count (s : InputSnapshot) : CountResult :=
  if s.hasGradedHeader then
    match (s.rows.filterMap (fun r => r.graded)).head? with
    | some n => .count n
    | none => .emptyColumn
  else .noHeader

/-- The handled failure modes of the pipeline (each a printed diagnostic plus
`return False` in the Python code), named after the spec's error taxonomy. -/
inductive PipelineError where
  | ambiguousOrder
  | missingGradedColumn
  | timelineInversion (countOld countNew : Int)
  | missingGradedColName
deriving DecidableEq, Repr

/-- Result of `validate_comparison_order` (lines 67-85): `valid`/`invalid`
are the `True`/`False` returns; `vcrash` is the uncaught exception raised
inside `find_completed_assessment_count`. -/
inductive ValidationResult where
  | valid
  | invalid (e : PipelineError)
  | vcrash (msg : String)
deriving DecidableEq, Repr

/-- Embedding of `validate_comparison_order` (lines 67-85). `count_old` is
computed before `count_new`, so a crash in the older file's lookup fires
first; the `None` check precedes the count comparison. -/
def validate_comparison_order (df_old df_new : InputSnapshot) : ValidationResult :=
  match find_completed_assessment_count df_old with
  | .emptyColumn => .vcrash "IndexError in find_completed_assessment_count"
  | .noHeader =>
    match find_completed_assessment_count df_new with
    | .emptyColumn => .vcrash "IndexError in find_completed_assessment_count"
    | _ => .invalid .missingGradedColumn
  | .count a =>
    match find_completed_assessment_count df_new with
    | .emptyColumn => .vcrash "IndexError in find_completed_assessment_count"
    | .noHeader => .invalid .missingGradedColumn
    | .count b => if b < a then .invalid (.timelineInversion a b) else .valid

/-- One row of `merged_df`/`final_df` (lines 174-192): display columns and the
merge key from the older file, the `Current Graded Assessments` value from the
matching newer row, and the two grade columns. -/
structure MergedRow where
  col0 : String
  col1 : String
  key : String
  currentGraded : Option Int
  prev : Option Rat
  curr : Option Rat
deriving DecidableEq, Repr

/-- The `Grade Change (%)` column (lines 182-184): newer minus older grade,
NaN when either operand is NaN. -/
def gradeChange (r : MergedRow) : Option Rat :=
  match r.prev, r.curr with
  | some p, some c => some (c - p)
  | _, _ => none

/-- Embedding of `pd.merge(df_old_data, df_new_data, on=merge_key,
how='inner')` (line 181): each older row is paired with every newer row
carrying the same key, in left-major order. -/
def mergeRows : List InputRow → List InputRow → List MergedRow
  | [], _ => []
  | o :: os, new =>
      ((new.filter (fun n => n.key == o.key)).map (fun n =>
        { col0 := o.col0, col1 := o.col1, key := o.key,
          currentGraded := n.graded, prev := o.grade, curr := n.grade })) ++ mergeRows os new

/-- Pandas comparison `series > c`: false on NaN. -/
def optGtB (a : Option Rat) (c : Rat) : Bool :=
  match a with
  | some x => decide (c < x)
  | none => false

/-- Pandas comparison `series >= c`: false on NaN. -/
def optGeB (a : Option Rat) (c : Rat) : Bool :=
  match a with
  | some x => decide (c ≤ x)
  | none => false

/-- Pandas equality `series == v`: false whenever either side is NaN. -/
def optEqB (a b : Option Rat) : Bool :=
  match a, b with
  | some x, some y => decide (x = y)
  | _, _ => false

/-- Maximum of a list of rationals, `none` on the empty list; applied after
`filterMap`, it models `Series.max()` with its default NaN skipping. -/
def listMaxQ : List Rat → Option Rat
  | [] => none
  | x :: xs =>
    match listMaxQ xs with
    | none => some x
    | some m => some (max x m)

/-- Minimum of a list of rationals, `none` on the empty list; models
`Series.min()` with NaN skipping. -/
def listMinQ : List Rat → Option Rat
  | [] => none
  | x :: xs =>
    match listMinQ xs with
    | none => some x
    | some m => some (min x m)

/-- Embedding of the most-improved selection (lines 194-208): the list of
student keys collected by the three-branch rule, duplicates included, in row
order. -/
def most_improved_students (rows : List MergedRow) : List String :=
  let max_change := listMaxQ (rows.filterMap gradeChange)
  if optGtB max_change TINY_CHANGE_LIMIT then
    (rows.filter (fun r => optEqB (gradeChange r) max_change)).map (fun r => r.key)
  else
    let nsw := rows.filter (fun r => optGeB (gradeChange r) (-TINY_CHANGE_LIMIT))
    if !nsw.isEmpty then
      let max_current := listMaxQ (nsw.filterMap (fun r => r.curr))
      (nsw.filter (fun r => optEqB r.curr max_current)).map (fun r => r.key)
    else
      (rows.filter (fun r => optEqB (gradeChange r) max_change)).map (fun r => r.key)

/-- Embedding of the biggest-decline selection (lines 215-217): the keys of
the rows whose grade change equals the minimum, with no tiny-change
special-casing. -/
def most_declined_students (rows : List MergedRow) : List String :=
  let min_change := listMinQ (rows.filterMap gradeChange)
  (rows.filter (fun r => optEqB (gradeChange r) min_change)).map (fun r => r.key)

/-- A `final_df` row after the two tag columns are added (lines 210-222).
The tags hold the literal strings the Python code writes. -/
structure ReportRow where
  row : MergedRow
  mostImprovedTag : String
  biggestDeclineTag : String
deriving DecidableEq, Repr

/-- Embedding of the two `.apply` calls (lines 210-212 and 220-222): each row
is tagged by membership of its key in the corresponding winners list. -/
def classify_rows (rows : List MergedRow) : List ReportRow :=
  let imp := most_improved_students rows
  let dec := most_declined_students rows
  rows.map (fun r =>
    { row := r,
      mostImprovedTag := if r.key ∈ imp then "🥇 MOST IMPROVED" else "",
      biggestDeclineTag := if r.key ∈ dec then "🔻 BIGGEST DROP" else "" })

/-- The ComparisonReport of the spec: the tagged rows plus the resolved
output file name. -/
structure ComparisonReport where
  rows : List ReportRow
  outputFile : String
deriving DecidableEq, Repr

/-- Overall outcome of `compare_student_grades`: `ok` is a `return True` with
the report that was written, `failure` a handled `return False`, `crash` an
uncaught Python exception escaping the function. -/
inductive Outcome where
  | ok (r : ComparisonReport)
  | failure (e : PipelineError)
  | crash (msg : String)
deriving DecidableEq, Repr

/-- Models `class_name.replace('/', '-')` (line 151): a single-character
replacement is a character map. -/
def replaceSlash (s : String) : String :=
  String.mk (s.data.map (fun c => if c = '/' then '-' else c))

/-- Models `date_new.strftime('%d%b%Y')` (line 152): an injective rendering
of the inferred date. -/
def formatDate (d : Int) : String := toString d

/-- The body of `compare_student_grades` after the older/newer roles are
fixed (lines 145-229 up to the report construction): validation, dynamic
output naming (`df_new.iloc[0]` raises on an empty newer table, line 150),
the `find_graded_col` presence check, the inner merge and the tagging. -/
def compareOrdered (df_old df_new : InputSnapshot) (date_new : Int) : Outcome :=
  match validate_comparison_order df_old df_new with
  | .vcrash m => .crash m
  | .invalid e => .failure e
  | .valid =>
    match df_new.rows.head? with
    | none => .crash "IndexError in class name lookup"
    | some firstRow =>
      let class_name := replaceSlash firstRow.col1
      let output_file := class_name ++ "_Grade_Comparison_Report_" ++ formatDate date_new ++ ".xlsx"
      if df_old.hasGradedHeader && df_new.hasGradedHeader then
        .ok { rows := classify_rows (mergeRows df_old.rows df_new.rows),
              outputFile := output_file }
      else .failure .missingGradedColName

/-- Embedding of `compare_student_grades` (lines 90-229) from the point where
both files have been loaded: clean both tables, order them by inferred date
(lines 135-143, with equal dates aborting the comparison), then run the
ordered comparison. -/
def compare_student_grades (s1 s2 : InputSnapshot) : Outcome :=
  let df1 := load_and_clean_data s1
  let df2 := load_and_clean_data s2
  if s1.date < s2.date then compareOrdered df1 df2 s2.date
  else if s2.date < s1.date then compareOrdered df2 df1 s1.date
  else .failure .ambiguousOrder

/-- The rows of an `ok` outcome, `[]` otherwise. -/
def reportRows (o : Outcome) : List ReportRow :=
  match o with
  | .ok r => r.rows
  | _ => []

/-- Fill colors used by the renderer (lines 258-264). -/
inductive FillColor where
  | green
  | purple
  | yellow
  | red
  | cyan
deriving DecidableEq, Repr

/-- The observable state of the grade-change cell after the styling pass:
its fill (none = no fill applied), its stored value (none = the cell was
written from NaN and left empty), and its number format (none = default). -/
structure StyledCell where
  fill : Option FillColor
  value : Option Rat
  numberFormat : Option String
deriving DecidableEq, Repr

/-- Embedding of the conditional-formatting branch chain of the renderer
(lines 266-299), for one data row: the NaN guard, then the five
first-match-wins rules keyed off the two tag cells and the grade-change
value. -/
def style_grade_change_cell (mostImprovedTag biggestDeclineTag : String) (v : Option Rat) : StyledCell :=
  match v with
  | none => { fill := none, value := none, numberFormat := none }
  | some g =>
    if mostImprovedTag = "🥇 MOST IMPROVED" then
      if |g| ≤ TINY_CHANGE_LIMIT then
        { fill := some .green, value := some 0, numberFormat := some "0.00" }
      else
        { fill := some .green, value := some g, numberFormat := none }
    else if biggestDeclineTag = "🔻 BIGGEST DROP" then
      { fill := some .purple, value := some g, numberFormat := none }
    else if |g| ≤ TINY_CHANGE_LIMIT then
      { fill := some .yellow, value := some 0, numberFormat := some "0.00" }
    else if g < 0 then
      { fill := some .red, value := some g, numberFormat := none }
    else if 0 < g then
      { fill := some .cyan, value := some g, numberFormat := none }
    else
      { fill := none, value := some g, numberFormat := none }

/-- Styling of one report row: the renderer reads the tag cells of columns H
and I and the grade-change cell of column G of the same row. -/
def renderRow (x : ReportRow) : StyledCell :=
  style_grade_change_cell x.mostImprovedTag x.biggestDeclineTag (gradeChange x.row)


/-- Claim-side restatement of the three-tier most-improved rule, following the
spec's words (section 4.3): with `max_change` the maximum grade change over the
joined rows, a row wins by tier 1 when `max_change > TINY` and its change
equals `max_change`; by tier 2 when tier 1 fails, some row has a change
`>= -TINY`, the row is among those and its current grade is the maximum
current grade of that subset; by tier 3 (everyone declined beyond the
threshold) when its change equals `max_change`. When no joined row has a
defined grade change there is no maximum and no row wins. -/
def claimMostImproved (rows : List MergedRow) (r : MergedRow) : Bool :=
  match listMaxQ (rows.filterMap gradeChange) with
  | none => false
  | some m =>
    if TINY_CHANGE_LIMIT < m then optEqB (gradeChange r) (some m)
    else if rows.any (fun y => optGeB (gradeChange y) (-TINY_CHANGE_LIMIT)) then
      optGeB (gradeChange r) (-TINY_CHANGE_LIMIT) &&
        optEqB r.curr
          (listMaxQ ((rows.filter (fun y => optGeB (gradeChange y) (-TINY_CHANGE_LIMIT))).filterMap
            (fun y => y.curr)))
    else optEqB (gradeChange r) (some m)

/-- Claim-side restatement of the biggest-decline rule, following the spec's
words (section 4.3): a row is flagged exactly when its grade change equals the
minimum grade change across all rows, with no tiny-change threshold. -/
def claimBiggestDecline (rows : List MergedRow) (r : MergedRow) : Bool :=
  match listMinQ (rows.filterMap gradeChange) with
  | none => false
  | some m => optEqB (gradeChange r) (some m)

/-- Older snapshot with a duplicated student key "A" (two rows share the
merge-key value), used to probe the key-membership flagging. -/
def c1old : InputSnapshot :=
  { rows := [⟨"r1", "MTH", "A", some 50, some 5⟩,
             ⟨"r2", "MTH", "A", some 80, some 5⟩,
             ⟨"r3", "MTH", "B", some 70, some 5⟩],
    date := 1, hasGradedHeader := true }

/-- Newer snapshot paired with `c1old`. -/
def c1new : InputSnapshot :=
  { rows := [⟨"r1", "MTH", "A", some 70, some 6⟩,
             ⟨"r3", "MTH", "B", some 70, some 6⟩],
    date := 2, hasGradedHeader := true }

/-- Older snapshot with a duplicated key whose two joined rows straddle the
minimum grade change. -/
def c2old : InputSnapshot :=
  { rows := [⟨"r1", "MTH", "A", some 80, some 5⟩,
             ⟨"r2", "MTH", "A", some 50, some 5⟩,
             ⟨"r3", "MTH", "B", some 70, some 5⟩],
    date := 1, hasGradedHeader := true }

/-- Newer snapshot paired with `c2old`. -/
def c2new : InputSnapshot :=
  { rows := [⟨"r1", "MTH", "A", some 70, some 6⟩,
             ⟨"r3", "MTH", "B", some 75, some 6⟩],
    date := 2, hasGradedHeader := true }

/-- Older snapshot of a two-student cohort in which both students improve by
the same amount. -/
def c9old : InputSnapshot :=
  { rows := [⟨"r1", "MTH", "A", some 50, some 5⟩,
             ⟨"r2", "MTH", "B", some 60, some 5⟩],
    date := 1, hasGradedHeader := true }

/-- Newer snapshot paired with `c9old`: both grade changes equal +5. -/
def c9new : InputSnapshot :=
  { rows := [⟨"r1", "MTH", "A", some 55, some 6⟩,
             ⟨"r2", "MTH", "B", some 65, some 6⟩],
    date := 2, hasGradedHeader := true }

/-- Older snapshot in which student "A" has an unparseable course grade
(cleaned to missing). -/
def c7old : InputSnapshot :=
  { rows := [⟨"r1", "MTH", "A", none, some 5⟩,
             ⟨"r2", "MTH", "B", some 50, some 5⟩],
    date := 1, hasGradedHeader := true }

/-- Newer snapshot paired with `c7old`; student "A" has a valid grade here. -/
def c7new : InputSnapshot :=
  { rows := [⟨"r1", "MTH", "A", some 70, some 6⟩,
             ⟨"r2", "MTH", "B", some 55, some 6⟩],
    date := 2, hasGradedHeader := true }

/-- Three-student older snapshot with pairwise-distinct keys. -/
def cwOld : InputSnapshot :=
  { rows := [⟨"r1", "MTH", "A", some 50, some 5⟩,
             ⟨"r2", "MTH", "B", some 60, some 5⟩,
             ⟨"r3", "MTH", "C", some 70, some 5⟩],
    date := 1, hasGradedHeader := true }

/-- Newer snapshot paired with `cwOld`: changes +10, -2 and 0. -/
def cwNew : InputSnapshot :=
  { rows := [⟨"r1", "MTH", "A", some 60, some 6⟩,
             ⟨"r2", "MTH", "B", some 58, some 6⟩,
             ⟨"r3", "MTH", "C", some 70, some 6⟩],
    date := 2, hasGradedHeader := true }

/-- The report produced for the pair `cwOld`, `cwNew`. -/
def cwRep : ComparisonReport :=
  { rows := [⟨⟨"r1", "MTH", "A", some 6, some 50, some 60⟩, "🥇 MOST IMPROVED", ""⟩,
             ⟨⟨"r2", "MTH", "B", some 6, some 60, some 58⟩, "", "🔻 BIGGEST DROP"⟩,
             ⟨⟨"r3", "MTH", "C", some 6, some 70, some 70⟩, "", ""⟩],
    outputFile := "MTH_Grade_Comparison_Report_2.xlsx" }

/-- Single-student older snapshot for the order-independence witness. -/
def c4s1 : InputSnapshot :=
  { rows := [⟨"r1", "MTH", "A", some 50, some 5⟩], date := 1, hasGradedHeader := true }

/-- Single-student newer snapshot for the order-independence witness. -/
def c4s2 : InputSnapshot :=
  { rows := [⟨"r1", "MTH", "A", some 60, some 6⟩], date := 2, hasGradedHeader := true }

/-- The report produced for the pair `c4s1`, `c4s2` in either argument
order. -/
def c4rep : ComparisonReport :=
  { rows := [⟨⟨"r1", "MTH", "A", some 6, some 50, some 60⟩,
              "🥇 MOST IMPROVED", "🔻 BIGGEST DROP"⟩],
    outputFile := "MTH_Grade_Comparison_Report_2.xlsx" }

/-- The report produced for the pair `c7old`, `c7new`: the student with the
unparseable grade is still joined, with a missing previous grade. -/
def c7rep : ComparisonReport :=
  { rows := [⟨⟨"r1", "MTH", "A", some 6, none, some 70⟩, "", ""⟩,
             ⟨⟨"r2", "MTH", "B", some 6, some 50, some 55⟩,
              "🥇 MOST IMPROVED", "🔻 BIGGEST DROP"⟩],
    outputFile := "MTH_Grade_Comparison_Report_2.xlsx" }

/-- Older snapshot reporting 7 graded activities. -/
def c5old : InputSnapshot :=
  { rows := [⟨"r1", "MTH", "A", some 50, some 7⟩], date := 1, hasGradedHeader := true }

/-- Newer snapshot reporting only 5 graded activities: an inverted
timeline. -/
def c5new : InputSnapshot :=
  { rows := [⟨"r1", "MTH", "A", some 60, some 5⟩], date := 2, hasGradedHeader := true }

/-- A snapshot used for the equal-dates witness. -/
def c6snap : InputSnapshot :=
  { rows := [⟨"r1", "MTH", "A", some 50, some 5⟩], date := 3, hasGradedHeader := true }

/-- A second snapshot resolving to the same date as `c6snap`. -/
def c6snap2 : InputSnapshot :=
  { rows := [⟨"r1", "MTH", "A", some 60, some 6⟩], date := 3, hasGradedHeader := true }

/-- A snapshot whose `Graded /N` column exists but holds only missing
values: `df[col].dropna()` is empty. -/
def c8bad : InputSnapshot :=
  { rows := [⟨"r1", "MTH", "A", some 50, none⟩], date := 1, hasGradedHeader := true }

/-- A well-formed newer snapshot paired with `c8bad`. -/
def c8good : InputSnapshot :=
  { rows := [⟨"r1", "MTH", "A", some 60, some 6⟩], date := 2, hasGradedHeader := true }

/-- An untagged report row with grade change +5, for the renderer witness. -/
def c10row : ReportRow :=
  ⟨⟨"r1", "MTH", "A", some 6, some 50, some 55⟩, "", ""⟩

/-- First row of `cwRep`: student "A", change +10, flagged most improved. -/
def cwRow0 : ReportRow :=
  ⟨⟨"r1", "MTH", "A", some 6, some 50, some 60⟩, "🥇 MOST IMPROVED", ""⟩

/-- Second row of `cwRep`: student "B", change -2, flagged biggest decline. -/
def cwRow1 : ReportRow :=
  ⟨⟨"r2", "MTH", "B", some 6, some 60, some 58⟩, "", "🔻 BIGGEST DROP"⟩

/-- First row of `c7rep`: the joined student with a missing previous
grade. -/
def c7row0 : ReportRow :=
  ⟨⟨"r1", "MTH", "A", some 6, none, some 70⟩, "", ""⟩

/-- An empty maximum means the value list was empty. -/
theorem listMaxQ_eq_none_iff (l : List Rat) : listMaxQ l = none ↔ l = [] := by
  cases l with
  | nil => simp [listMaxQ]
  | cons x xs =>
    simp only [listMaxQ]
    cases listMaxQ xs <;> simp

/-- An empty minimum means the value list was empty. -/
theorem listMinQ_eq_none_iff (l : List Rat) : listMinQ l = none ↔ l = [] := by
  cases l with
  | nil => simp [listMinQ]
  | cons x xs =>
    simp only [listMinQ]
    cases listMinQ xs <;> simp

/-- Pandas equality against a defined value holds exactly on that value. -/
theorem optEqB_some_iff (a : Option Rat) (v : Rat) :
    optEqB a (some v) = true ↔ a = some v := by
  cases a <;> simp [optEqB]

/-- Pandas equality against NaN never holds. -/
theorem optEqB_none (a : Option Rat) : optEqB a none = false := by
  cases a <;> simp [optEqB]

/-- Cleaning does not touch the `Graded /N` column or its header, so the
completed-assessment count of a cleaned snapshot is that of the raw one. -/
theorem find_count_clean (s : InputSnapshot) :
    find_completed_assessment_count (load_and_clean_data s) =
      find_completed_assessment_count s := by
  simp [find_completed_assessment_count, load_and_clean_data, List.filterMap_map,
    Function.comp_def]

/-- Tagging preserves the underlying merged rows. -/
theorem classify_rows_map_row (rows : List MergedRow) :
    (classify_rows rows).map (fun x => x.row) = rows := by
  simp [classify_rows, Function.comp_def]

/-- Tagging preserves the key column. -/
theorem classify_rows_keys (rows : List MergedRow) :
    (classify_rows rows).map (fun x => x.row.key) = rows.map (fun r => r.key) := by
  simp [classify_rows, Function.comp_def]

/-- Every tagged row comes from a merged row, and its two tag cells are the
key-membership tests of the Python `.apply` lambdas. -/
theorem mem_classify_rows (rows : List MergedRow) (x : ReportRow)
    (hx : x ∈ classify_rows rows) :
    x.row ∈ rows ∧
    x.mostImprovedTag =
      (if x.row.key ∈ most_improved_students rows then "🥇 MOST IMPROVED" else "") ∧
    x.biggestDeclineTag =
      (if x.row.key ∈ most_declined_students rows then "🔻 BIGGEST DROP" else "") := by
  unfold classify_rows at hx
  rcases List.mem_map.mp hx with ⟨r, hr, heq⟩
  subst heq
  exact ⟨hr, rfl, rfl⟩

/-- With pairwise-distinct keys, a row's key appears among the keys of the
rows surviving a filter exactly when the row itself passes the filter. -/
theorem key_mem_filter_iff (rows : List MergedRow) (p : MergedRow → Bool)
    (hnd : (rows.map (fun r => r.key)).Nodup)
    (r : MergedRow) (hr : r ∈ rows) :
    r.key ∈ (rows.filter p).map (fun x => x.key) ↔ p r = true := by
  constructor
  · intro hmem
    rcases List.mem_map.mp hmem with ⟨x, hx, hkey⟩
    have hx1 := (List.mem_filter.mp hx).1
    have hp := (List.mem_filter.mp hx).2
    have hxr : x = r := List.inj_on_of_nodup_map hnd hx1 hr hkey
    rwa [← hxr]
  · intro hp
    exact List.mem_map.mpr ⟨r, List.mem_filter.mpr ⟨hr, hp⟩, rfl⟩

/-- Inversion of the ordered comparison: a successful outcome's rows are the
tagged inner merge of the two tables. -/
theorem compareOrdered_ok_rows (df_old df_new : InputSnapshot) (d : Int)
    (rep : ComparisonReport) (h : compareOrdered df_old df_new d = .ok rep) :
    rep.rows = classify_rows (mergeRows df_old.rows df_new.rows) := by
  unfold compareOrdered at h
  split at h
  · simp at h
  · simp at h
  · split at h
    · simp at h
    · split_ifs at h
      rw [Outcome.ok.injEq] at h
      rw [← h]

/-- Inversion of the entry point: a successful comparison's rows are the
tagged inner merge of two cleaned snapshots. -/
theorem compare_ok_rows (s1 s2 : InputSnapshot) (rep : ComparisonReport)
    (h : compare_student_grades s1 s2 = .ok rep) :
    ∃ dfo dfn : InputSnapshot,
      rep.rows = classify_rows (mergeRows dfo.rows dfn.rows) := by
  unfold compare_student_grades at h
  split_ifs at h
  all_goals exact ⟨_, _, compareOrdered_ok_rows _ _ _ _ h⟩

/-- With pairwise-distinct keys, membership in the most-improved winners list
coincides with the claim's three-tier per-row rule. -/
theorem mem_most_improved_iff (rows : List MergedRow)
    (hnd : (rows.map (fun r => r.key)).Nodup)
    (r : MergedRow) (hr : r ∈ rows) :
    r.key ∈ most_improved_students rows ↔ claimMostImproved rows r = true := by
  unfold most_improved_students claimMostImproved
  cases hmax : listMaxQ (rows.filterMap gradeChange) with
  | none =>
    have hnil : rows.filterMap gradeChange = [] := (listMaxQ_eq_none_iff _).mp hmax
    have hall : ∀ y ∈ rows, gradeChange y = none := by
      intro y hy
      cases hgc : gradeChange y with
      | none => rfl
      | some v =>
        have hv : v ∈ rows.filterMap gradeChange := List.mem_filterMap.mpr ⟨y, hy, hgc⟩
        rw [hnil] at hv
        simp at hv
    have hnsw : rows.filter (fun y => optGeB (gradeChange y) (-TINY_CHANGE_LIMIT)) = [] := by
      rw [List.filter_eq_nil_iff]
      intro y hy
      rw [hall y hy]
      simp [optGeB]
    have hfil : rows.filter (fun y => optEqB (gradeChange y) none) = [] := by
      rw [List.filter_eq_nil_iff]
      intro y hy
      simp [optEqB_none]
    simp [optGtB, hnsw, hfil]
  | some m =>
    by_cases hm : TINY_CHANGE_LIMIT < m
    · have hgt : optGtB (some m) TINY_CHANGE_LIMIT = true := by
        simp [optGtB, hm]
      simp only [hgt, if_true, if_pos hm]
      exact key_mem_filter_iff rows _ hnd r hr
    · have hgt : optGtB (some m) TINY_CHANGE_LIMIT = false := by
        simp [optGtB, hm]
      simp only [hgt, Bool.false_eq_true, if_false, if_neg hm]
      by_cases hany : rows.any (fun y => optGeB (gradeChange y) (-TINY_CHANGE_LIMIT)) = true
      · have hne : (rows.filter (fun y => optGeB (gradeChange y) (-TINY_CHANGE_LIMIT))).isEmpty = false := by
          rcases List.any_eq_true.mp hany with ⟨y, hy, hp⟩
          rw [List.isEmpty_eq_false_iff_exists_mem]
          exact ⟨y, List.mem_filter.mpr ⟨hy, hp⟩⟩
        simp only [hne, Bool.not_false, if_true, if_pos hany, List.filter_filter]
        refine Iff.trans (key_mem_filter_iff rows _ hnd r hr) ?_
        rw [Bool.and_comm]
      · have hnsw : rows.filter (fun y => optGeB (gradeChange y) (-TINY_CHANGE_LIMIT)) = [] := by
          rw [List.filter_eq_nil_iff]
          intro y hy
          by_contra hcon
          exact hany (List.any_eq_true.mpr ⟨y, hy, by simpa using hcon⟩)
        simp only [hnsw, List.isEmpty_nil, Bool.not_true, Bool.false_eq_true, if_false,
          if_neg hany]
        exact key_mem_filter_iff rows _ hnd r hr

/-- With pairwise-distinct keys, membership in the biggest-decline list
coincides with being at the minimum grade change. -/
theorem mem_most_declined_iff (rows : List MergedRow)
    (hnd : (rows.map (fun r => r.key)).Nodup)
    (r : MergedRow) (hr : r ∈ rows) :
    r.key ∈ most_declined_students rows ↔ claimBiggestDecline rows r = true := by
  unfold most_declined_students claimBiggestDecline
  cases hmin : listMinQ (rows.filterMap gradeChange) with
  | none =>
    have hfil : rows.filter (fun y => optEqB (gradeChange y) none) = [] := by
      rw [List.filter_eq_nil_iff]
      intro y hy
      simp [optEqB_none]
    simp only [hfil, List.map_nil, List.not_mem_nil, false_iff]
    simp
  | some m =>
    exact key_mem_filter_iff rows _ hnd r hr

/-- With pairwise-distinct keys, a tagged row carries the most-improved tag
exactly when it satisfies the claim's three-tier rule. -/
theorem improved_tag_iff (rows : List MergedRow)
    (hnd : (rows.map (fun r => r.key)).Nodup)
    (x : ReportRow) (hx : x ∈ classify_rows rows) :
    x.mostImprovedTag = "🥇 MOST IMPROVED" ↔ claimMostImproved rows x.row = true := by
  obtain ⟨hr, htag, -⟩ := mem_classify_rows rows x hx
  rw [htag, ← mem_most_improved_iff rows hnd x.row hr]
  by_cases hm : x.row.key ∈ most_improved_students rows
  · simp [hm]
  · simp only [hm, if_false, iff_false]
    intro hcon
    exact absurd hcon (by decide)

/-- With pairwise-distinct keys, a tagged row carries the biggest-decline tag
exactly when its grade change is the minimum. -/
theorem declined_tag_iff (rows : List MergedRow)
    (hnd : (rows.map (fun r => r.key)).Nodup)
    (x : ReportRow) (hx : x ∈ classify_rows rows) :
    x.biggestDeclineTag = "🔻 BIGGEST DROP" ↔ claimBiggestDecline rows x.row = true := by
  obtain ⟨hr, -, htag⟩ := mem_classify_rows rows x hx
  rw [htag, ← mem_most_declined_iff rows hnd x.row hr]
  by_cases hm : x.row.key ∈ most_declined_students rows
  · simp [hm]
  · simp only [hm, if_false, iff_false]
    intro hcon
    exact absurd hcon (by decide)

/-- C1 (amended: joined rows carry pairwise-distinct student keys): for every
validated snapshot pair with at least one joined row, a row is flagged
most-improved exactly when the three-tier rule selects it — at the maximum
grade change when `max_change > TINY`, otherwise at the maximum current grade
among the rows with change `>= -TINY` when any exist, otherwise at the
maximum (least-bad) grade change. -/
theorem c1_most_improved_three_tier (s1 s2 : InputSnapshot) (rep : ComparisonReport)
    (hok : compare_student_grades s1 s2 = .ok rep)
    (hnd : (rep.rows.map (fun x => x.row.key)).Nodup)
    (_hne : rep.rows ≠ [])
    (x : ReportRow) (hx : x ∈ rep.rows) :
    (x.mostImprovedTag = "🥇 MOST IMPROVED" ↔
      claimMostImproved (rep.rows.map (fun y => y.row)) x.row = true) := by
  obtain ⟨dfo, dfn, hrows⟩ := compare_ok_rows s1 s2 rep hok
  rw [hrows] at hx hnd ⊢
  rw [classify_rows_map_row]
  rw [classify_rows_keys] at hnd
  exact improved_tag_iff _ hnd x hx

/-- Witness for C1: the three-student report of `cwOld`/`cwNew` at its first
row, which improves by 10 and is flagged. -/
theorem c1_most_improved_witness :
    (cwRow0.mostImprovedTag = "🥇 MOST IMPROVED" ↔
      claimMostImproved (cwRep.rows.map (fun y => y.row)) cwRow0.row = true) :=
  c1_most_improved_three_tier cwOld cwNew cwRep (by decide) (by decide) (by decide)
    cwRow0 (by decide)

/-- Counterexample to C1 as stated: for the validated pair `c1old`/`c1new`
(duplicated key "A"), tier 1 applies with maximum change 20, yet the second
report row is flagged most-improved while its own change is -10 — the flags
follow key membership, not the per-row rule. -/
theorem c1_counterexample :
    (reportRows (compare_student_grades c1old c1new)).length = 3 ∧
    listMaxQ (((reportRows (compare_student_grades c1old c1new)).map
      (fun x => x.row)).filterMap gradeChange) = some 20 ∧
    TINY_CHANGE_LIMIT < 20 ∧
    ((reportRows (compare_student_grades c1old c1new))[1]?).map
      (fun x => x.mostImprovedTag) = some "🥇 MOST IMPROVED" ∧
    ((reportRows (compare_student_grades c1old c1new))[1]?).map
      (fun x => gradeChange x.row) = some (some (-10)) := by
  decide

/-- C2 (amended: joined rows carry pairwise-distinct student keys): for every
validated snapshot pair with at least one joined row, a row is flagged
biggest-decline exactly when its grade change equals the minimum grade change,
with no tiny-change threshold. -/
theorem c2_biggest_decline_minimum (s1 s2 : InputSnapshot) (rep : ComparisonReport)
    (hok : compare_student_grades s1 s2 = .ok rep)
    (hnd : (rep.rows.map (fun x => x.row.key)).Nodup)
    (_hne : rep.rows ≠ [])
    (x : ReportRow) (hx : x ∈ rep.rows) :
    (x.biggestDeclineTag = "🔻 BIGGEST DROP" ↔
      claimBiggestDecline (rep.rows.map (fun y => y.row)) x.row = true) := by
  obtain ⟨dfo, dfn, hrows⟩ := compare_ok_rows s1 s2 rep hok
  rw [hrows] at hx hnd ⊢
  rw [classify_rows_map_row]
  rw [classify_rows_keys] at hnd
  exact declined_tag_iff _ hnd x hx

/-- Witness for C2: the three-student report of `cwOld`/`cwNew` at its second
row, whose change -2 is the minimum and which is flagged. -/
theorem c2_biggest_decline_witness :
    (cwRow1.biggestDeclineTag = "🔻 BIGGEST DROP" ↔
      claimBiggestDecline (cwRep.rows.map (fun y => y.row)) cwRow1.row = true) :=
  c2_biggest_decline_minimum cwOld cwNew cwRep (by decide) (by decide) (by decide)
    cwRow1 (by decide)

/-- Counterexample to C2 as stated: for the validated pair `c2old`/`c2new`
(duplicated key "A"), the minimum change is -10, yet the second report row is
flagged biggest-decline while its own change is +20. -/
theorem c2_counterexample :
    (reportRows (compare_student_grades c2old c2new)).length = 3 ∧
    listMinQ (((reportRows (compare_student_grades c2old c2new)).map
      (fun x => x.row)).filterMap gradeChange) = some (-10) ∧
    ((reportRows (compare_student_grades c2old c2new))[1]?).map
      (fun x => x.biggestDeclineTag) = some "🔻 BIGGEST DROP" ∧
    ((reportRows (compare_student_grades c2old c2new))[1]?).map
      (fun x => gradeChange x.row) = some (some 20) := by
  decide

/-- C9 (amended): a row may carry both flags even when the report has two or
more rows (see the counterexample); what does hold is that when the joined
rows carry pairwise-distinct keys, the maximum grade change exceeds TINY and
the minimum differs from the maximum, no row is flagged both most-improved
and biggest-decline. -/
theorem c9_no_double_flag_when_extremes_differ (s1 s2 : InputSnapshot)
    (rep : ComparisonReport)
    (hok : compare_student_grades s1 s2 = .ok rep)
    (hnd : (rep.rows.map (fun x => x.row.key)).Nodup)
    (M m : Rat)
    (hM : listMaxQ ((rep.rows.map (fun y => y.row)).filterMap gradeChange) = some M)
    (hm : listMinQ ((rep.rows.map (fun y => y.row)).filterMap gradeChange) = some m)
    (hMT : TINY_CHANGE_LIMIT < M) (hMm : m ≠ M)
    (x : ReportRow) (hx : x ∈ rep.rows) :
    ¬(x.mostImprovedTag = "🥇 MOST IMPROVED" ∧
      x.biggestDeclineTag = "🔻 BIGGEST DROP") := by
  rintro ⟨himp, hdec⟩
  obtain ⟨dfo, dfn, hrows⟩ := compare_ok_rows s1 s2 rep hok
  rw [hrows] at hx hnd hM hm
  rw [classify_rows_keys] at hnd
  rw [classify_rows_map_row] at hM hm
  have h1 := (improved_tag_iff _ hnd x hx).mp himp
  have h2 := (declined_tag_iff _ hnd x hx).mp hdec
  unfold claimMostImproved at h1
  simp only [hM] at h1
  rw [if_pos hMT] at h1
  unfold claimBiggestDecline at h2
  simp only [hm] at h2
  rw [optEqB_some_iff] at h1 h2
  rw [h1] at h2
  injection h2 with h3
  exact hMm h3.symm

/-- Witness for C9: the three-student report of `cwOld`/`cwNew` (maximum
change 10, minimum -2) at its first row. -/
theorem c9_no_double_flag_witness :
    ¬(cwRow0.mostImprovedTag = "🥇 MOST IMPROVED" ∧
      cwRow0.biggestDeclineTag = "🔻 BIGGEST DROP") :=
  c9_no_double_flag_when_extremes_differ cwOld cwNew cwRep (by decide) (by decide)
    10 (-2) (by decide) (by decide) (by decide) (by decide) cwRow0 (by decide)

/-- Counterexample to C9 as stated: for the validated pair `c9old`/`c9new`
both students improve by exactly 5, the report has two rows, and every row is
flagged both most-improved and biggest-decline. -/
theorem c9_counterexample :
    (reportRows (compare_student_grades c9old c9new)).length = 2 ∧
    (reportRows (compare_student_grades c9old c9new)).all (fun x =>
      decide (x.mostImprovedTag = "🥇 MOST IMPROVED") &&
      decide (x.biggestDeclineTag = "🔻 BIGGEST DROP")) = true := by
  decide

/-- C7 (amended): a student whose course grade is unparseable in either
snapshot is not excluded by the join, which matches on the student key only;
such a joined row has a missing grade change and the renderer leaves its
grade-change cell unfilled and empty. -/
theorem c7_missing_grades_join (s1 s2 : InputSnapshot) (rep : ComparisonReport)
    (_hok : compare_student_grades s1 s2 = .ok rep)
    (x : ReportRow) (_hx : x ∈ rep.rows)
    (hmiss : x.row.prev = none ∨ x.row.curr = none) :
    gradeChange x.row = none ∧ (renderRow x).fill = none ∧
      (renderRow x).value = none := by
  have hchg : gradeChange x.row = none := by
    rcases hmiss with h | h
    · simp [gradeChange, h]
    · cases hp : x.row.prev <;> simp [gradeChange, h, hp]
  refine ⟨hchg, ?_, ?_⟩ <;> simp [renderRow, hchg, style_grade_change_cell]

/-- Witness for C7: the report of `c7old`/`c7new` at its first row, whose
previous grade is missing. -/
theorem c7_missing_grades_witness :
    gradeChange c7row0.row = none ∧ (renderRow c7row0).fill = none ∧
      (renderRow c7row0).value = none :=
  c7_missing_grades_join c7old c7new c7rep (by decide) c7row0 (by decide)
    (Or.inl (by decide))

/-- Counterexample to C7 as stated: for the validated pair `c7old`/`c7new`,
student "A" has an unparseable (missing) grade in the older snapshot yet the
joined report keeps the row, with `previous_grade` missing. -/
theorem c7_counterexample :
    compare_student_grades c7old c7new = .ok c7rep ∧
    c7rep.rows[0]? = some c7row0 ∧
    (c7rep.rows[0]?).map (fun x => x.row.prev) = some none := by
  decide

/-- C3: grade scale normalization multiplies exactly the individual values
strictly between 0 and 1.5 by 100, leaves values at or above 1.5 and values
at or below 0 (including the boundaries 1.5 and 0 themselves) unchanged, and
the cleaning step applies this decision value by value across the column. -/
theorem c3_scale_normalization (v : Rat) (s : InputSnapshot) :
    (0 < v → v < 3/2 → scale_individual_value v = v * 100) ∧
    (3/2 ≤ v ∨ v ≤ 0 → scale_individual_value v = v) ∧
    scale_individual_value (3/2) = 3/2 ∧
    scale_individual_value 0 = 0 ∧
    (load_and_clean_data s).rows.map (fun r => r.grade) =
      s.rows.map (fun r => r.grade.map scale_individual_value) := by
  refine ⟨?_, ?_, ?_, ?_, ?_⟩
  · intro h1 h2
    rw [scale_individual_value, if_pos ⟨h1, h2⟩]
  · intro h
    rw [scale_individual_value, if_neg]
    rintro ⟨h1, h2⟩
    rcases h with h | h
    · exact absurd h (not_le.mpr h2)
    · exact absurd h (not_le.mpr h1)
  · rw [scale_individual_value, if_neg]
    rintro ⟨-, h2⟩
    exact absurd h2 (lt_irrefl _)
  · rw [scale_individual_value, if_neg]
    rintro ⟨h1, -⟩
    exact absurd h1 (lt_irrefl _)
  · simp [load_and_clean_data]

/-- Witness for C3: 0.5 is rescaled to 50 and 50 is left unchanged. -/
theorem c3_scale_witness :
    scale_individual_value (1/2) = (1/2) * 100 ∧ scale_individual_value 50 = 50 :=
  ⟨(c3_scale_normalization (1/2) ⟨[], 0, true⟩).1 (by norm_num) (by norm_num),
   (c3_scale_normalization 50 ⟨[], 0, true⟩).2.1 (Or.inl (by norm_num))⟩

/-- C4: whenever the pipeline accepts a pair of snapshots and produces a
report, calling the entry point with the two arguments swapped produces the
identical report — same rows, same flags, same output file name. -/
theorem c4_order_independence (s1 s2 : InputSnapshot) (rep : ComparisonReport)
    (hok : compare_student_grades s1 s2 = .ok rep) :
    compare_student_grades s2 s1 = .ok rep := by
  unfold compare_student_grades at hok ⊢
  rcases lt_trichotomy s1.date s2.date with h | h | h
  · rw [if_pos h] at hok
    rw [if_neg (lt_asymm h), if_pos h]
    exact hok
  · rw [if_neg (by rw [h]; exact lt_irrefl _),
      if_neg (by rw [h]; exact lt_irrefl _)] at hok
    simp at hok
  · rw [if_neg (lt_asymm h), if_pos h] at hok
    rw [if_pos h]
    exact hok

/-- Witness for C4: the single-student pair `c4s1`/`c4s2` produces the same
report in swapped order. -/
theorem c4_order_independence_witness :
    compare_student_grades c4s2 c4s1 = .ok c4rep :=
  c4_order_independence c4s1 c4s2 c4rep (by decide)

/-- C5: with ordered dates, a graded count in the older snapshot strictly
above the newer one's makes the pipeline fail with the timeline-inversion
error carrying both counts; no report is produced. -/
theorem c5_timeline_inversion (s1 s2 : InputSnapshot) (a b : Int)
    (hd : s1.date < s2.date)
    (ha : find_completed_assessment_count s1 = .count a)
    (hb : find_completed_assessment_count s2 = .count b)
    (hab : b < a) :
    compare_student_grades s1 s2 = .failure (.timelineInversion a b) := by
  have ha2 : find_completed_assessment_count (load_and_clean_data s1) = .count a := by
    rw [find_count_clean]; exact ha
  have hb2 : find_completed_assessment_count (load_and_clean_data s2) = .count b := by
    rw [find_count_clean]; exact hb
  unfold compare_student_grades
  rw [if_pos hd]
  unfold compareOrdered validate_comparison_order
  simp only [ha2, hb2]
  rw [if_pos hab]

/-- Witness for C5: the pair `c5old` (7 graded) and `c5new` (5 graded) fails
with the inversion error reporting 7 and 5. -/
theorem c5_timeline_inversion_witness :
    compare_student_grades c5old c5new = .failure (.timelineInversion 7 5) :=
  c5_timeline_inversion c5old c5new 7 5 (by decide) (by decide) (by decide) (by decide)

/-- C6: two snapshots resolving to the same inferred date make the pipeline
fail with the ambiguous-order error before any validation, join or output. -/
theorem c6_ambiguous_order (s1 s2 : InputSnapshot) (h : s1.date = s2.date) :
    compare_student_grades s1 s2 = .failure .ambiguousOrder := by
  unfold compare_student_grades
  rw [if_neg (by rw [h]; exact lt_irrefl _), if_neg (by rw [h]; exact lt_irrefl _)]

/-- Witness for C6: two snapshots dated alike abort the comparison. -/
theorem c6_ambiguous_order_witness :
    compare_student_grades c6snap c6snap2 = .failure .ambiguousOrder :=
  c6_ambiguous_order c6snap c6snap2 (by decide)

/-- C8 fails on the code: a snapshot whose `Graded /N` column exists but
holds only missing values makes `find_completed_assessment_count` raise an
uncaught IndexError (`dropna().iloc[0]` on an empty series), escaping the
entry point instead of being converted into a failure return — the
validation stage sits outside every try block. -/
theorem c8_uncaught_exception :
    compare_student_grades c8bad c8good =
      .crash "IndexError in find_completed_assessment_count" := by
  decide

/-- C10: per rendered row with a numeric grade change, the first matching rule
decides the fill: most-improved gives light green (with the value normalized
to 0.00 when within TINY), else biggest-decline gives light purple, else a
within-TINY change gives light yellow with the value normalized to 0.00, else
a negative change gives light red, else light cyan; a missing grade change
receives no fill. -/
theorem c10_conditional_coloring (x : ReportRow) (g : Rat) :
    (gradeChange x.row = none →
      renderRow x = { fill := none, value := none, numberFormat := none }) ∧
    (gradeChange x.row = some g →
      ((x.mostImprovedTag = "🥇 MOST IMPROVED" →
          (renderRow x).fill = some FillColor.green ∧
          (|g| ≤ TINY_CHANGE_LIMIT →
            (renderRow x).value = some 0 ∧ (renderRow x).numberFormat = some "0.00") ∧
          (TINY_CHANGE_LIMIT < |g| → (renderRow x).value = some g)) ∧
       (x.mostImprovedTag ≠ "🥇 MOST IMPROVED" →
        x.biggestDeclineTag = "🔻 BIGGEST DROP" →
          (renderRow x).fill = some FillColor.purple) ∧
       (x.mostImprovedTag ≠ "🥇 MOST IMPROVED" →
        x.biggestDeclineTag ≠ "🔻 BIGGEST DROP" → |g| ≤ TINY_CHANGE_LIMIT →
          (renderRow x).fill = some FillColor.yellow ∧ (renderRow x).value = some 0 ∧
            (renderRow x).numberFormat = some "0.00") ∧
       (x.mostImprovedTag ≠ "🥇 MOST IMPROVED" →
        x.biggestDeclineTag ≠ "🔻 BIGGEST DROP" → TINY_CHANGE_LIMIT < |g| → g < 0 →
          (renderRow x).fill = some FillColor.red) ∧
       (x.mostImprovedTag ≠ "🥇 MOST IMPROVED" →
        x.biggestDeclineTag ≠ "🔻 BIGGEST DROP" → TINY_CHANGE_LIMIT < |g| → ¬g < 0 →
          (renderRow x).fill = some FillColor.cyan))) := by
  constructor
  · intro h
    rw [renderRow, h]
    rfl
  · intro h
    have hr : renderRow x =
        style_grade_change_cell x.mostImprovedTag x.biggestDeclineTag (some g) := by
      rw [renderRow, h]
    refine ⟨?_, ?_, ?_, ?_, ?_⟩
    · intro himp
      rw [hr]
      simp only [style_grade_change_cell]
      rw [if_pos himp]
      by_cases habs : |g| ≤ TINY_CHANGE_LIMIT
      · rw [if_pos habs]
        exact ⟨rfl, fun _ => ⟨rfl, rfl⟩, fun hlt => absurd hlt (not_lt.mpr habs)⟩
      · rw [if_neg habs]
        exact ⟨rfl, fun hle => absurd hle habs, fun _ => rfl⟩
    · intro himp hdec
      rw [hr]
      simp only [style_grade_change_cell]
      rw [if_neg himp, if_pos hdec]
    · intro himp hdec habs
      rw [hr]
      simp only [style_grade_change_cell]
      rw [if_neg himp, if_neg hdec, if_pos habs]
      exact ⟨rfl, rfl, rfl⟩
    · intro himp hdec habs hneg
      rw [hr]
      simp only [style_grade_change_cell]
      rw [if_neg himp, if_neg hdec, if_neg (not_le.mpr habs), if_pos hneg]
    · intro himp hdec habs hpos
      rw [hr]
      simp only [style_grade_change_cell]
      have hg : 0 < g := by
        have h2 := habs
        rw [abs_of_nonneg (not_lt.mp hpos)] at h2
        have ht : (0 : Rat) < TINY_CHANGE_LIMIT := by norm_num [TINY_CHANGE_LIMIT]
        exact lt_trans ht h2
      rw [if_neg himp, if_neg hdec, if_neg (not_le.mpr habs), if_neg hpos, if_pos hg]

/-- Witness for C10: an untagged row with change +5 is colored light cyan. -/
theorem c10_conditional_coloring_witness :
    (renderRow c10row).fill = some FillColor.cyan :=
  (((c10_conditional_coloring c10row 5).2 (by decide)).2.2.2.2) (by decide) (by decide)
    (by decide) (by decide)
